import Mathlib

/-!
Verification of the ESP32-CAM detection scripts.

The repository contains two near-duplicate edge-client scripts
(`examples/face_detection_script.py`, `examples/motion_detection_script.py`)
and a minimal server-side variant
(`server/scripts/script_0dab3cf3-....py`).  Each pulls JPEG frames out of an
MJPEG-style HTTP byte stream, runs a detector, and posts analytics reports.

This file shallowly embeds the frame-scanning logic, the detectors, the
reporter's outcome classification, and the driving detection loops, and
proves the specification's claims about them.  External OpenCV capabilities
(colour conversion, blur, contour extraction, JPEG decode) are modelled as
opaque function parameters; byte buffers are lists of naturals; Python floats
are modelled as rationals.
-/

/-! ### Frame scanning (FrameSource)

`bytes.find(sub)` in Python returns the lowest index at which `sub` occurs,
or -1.  `findSub` models it with `Option Nat`. -/

def SOI : List Nat := [0xFF, 0xD8]

def EOI : List Nat := [0xFF, 0xD9]

def findSub (pat : List Nat) : List Nat → Option Nat
  | [] => if pat.isPrefixOf ([] : List Nat) then some 0 else none
  | b :: rest =>
    if pat.isPrefixOf (b :: rest) then some 0
    else (findSub pat rest).map (· + 1)

/-- `pat` occurs in `buf` at index `i`. -/
def markerAt (pat buf : List Nat) (i : Nat) : Prop :=
  pat.isPrefixOf (buf.drop i) = true

/-- `i` is the least index at which `pat` occurs in `buf`. -/
def isFirstOccur (pat buf : List Nat) (i : Nat) : Prop :=
  markerAt pat buf i ∧ ∀ j, j < i → ¬ markerAt pat buf j

instance (pat buf : List Nat) (i : Nat) : Decidable (markerAt pat buf i) := by
  unfold markerAt; infer_instance

instance (pat buf : List Nat) (i : Nat) : Decidable (isFirstOccur pat buf i) := by
  unfold isFirstOccur; infer_instance

lemma markerAt_cons (pat : List Nat) (b : Nat) (rest : List Nat) (j : Nat) :
    markerAt pat (b :: rest) (j + 1) ↔ markerAt pat rest j := by
  simp [markerAt, List.drop_succ_cons]

lemma markerAt_nil (pat : List Nat) (i : Nat) :
    markerAt pat [] i ↔ pat.isPrefixOf ([] : List Nat) = true := by
  simp [markerAt]

/-- `findSub` computes exactly the first occurrence of `pat` in `buf`. -/
lemma findSub_some_iff (pat : List Nat) :
    ∀ (buf : List Nat) (i : Nat), findSub pat buf = some i ↔ isFirstOccur pat buf i := by
  intro buf
  induction buf with
  | nil =>
    intro i
    by_cases hp : pat.isPrefixOf ([] : List Nat) = true
    · simp only [findSub, if_pos hp]
      constructor
      · rintro h
        obtain rfl : i = 0 := by simpa using h.symm
        exact ⟨(markerAt_nil pat 0).mpr hp, fun j hj => absurd hj (Nat.not_lt_zero j)⟩
      · rintro ⟨-, hmin⟩
        rcases Nat.eq_zero_or_pos i with rfl | hpos
        · rfl
        · exact absurd ((markerAt_nil pat 0).mpr hp) (hmin 0 hpos)
    · simp only [findSub, if_neg hp]
      constructor
      · intro h; exact absurd h (by simp)
      · rintro ⟨hm, -⟩
        exact absurd ((markerAt_nil pat i).mp hm) hp
  | cons b rest ih =>
    intro i
    by_cases hp : pat.isPrefixOf (b :: rest) = true
    · simp only [findSub, if_pos hp]
      constructor
      · intro h
        obtain rfl : i = 0 := by simpa using h.symm
        exact ⟨by simpa [markerAt] using hp, fun j hj => absurd hj (Nat.not_lt_zero j)⟩
      · rintro ⟨-, hmin⟩
        rcases Nat.eq_zero_or_pos i with rfl | hpos
        · rfl
        · exact absurd (by simpa [markerAt] using hp) (hmin 0 hpos)
    · simp only [findSub, if_neg hp]
      cases i with
      | zero =>
        constructor
        · intro h
          rcases Option.map_eq_some'.mp h with ⟨j, -, hj⟩
          exact absurd hj (by omega)
        · rintro ⟨hm, -⟩
          exact absurd (by simpa [markerAt] using hm) hp
      | succ j =>
        constructor
        · intro h
          rcases Option.map_eq_some'.mp h with ⟨j', hj', heq⟩
          have hjj : j' = j := by omega
          rw [hjj] at hj'
          rcases (ih j).mp hj' with ⟨hm, hmin⟩
          refine ⟨(markerAt_cons pat b rest j).mpr hm, ?_⟩
          intro k hk
          cases k with
          | zero => simpa [markerAt] using hp
          | succ k' =>
            intro hmk
            exact hmin k' (by omega) ((markerAt_cons pat b rest k').mp hmk)
        · rintro ⟨hm, hmin⟩
          have hm' : markerAt pat rest j := (markerAt_cons pat b rest j).mp hm
          have hmin' : ∀ k, k < j → ¬ markerAt pat rest k := by
            intro k hk hmk
            exact hmin (k + 1) (by omega) ((markerAt_cons pat b rest k).mpr hmk)
          have : findSub pat rest = some j := (ih j).mpr ⟨hm', hmin'⟩
          simp [this]

/-- Scan step of the example scripts' `get_frame_from_stream`:
`jpeg_start = bytes_data.find(b'\xff\xd8')`, `jpeg_end = bytes_data.find(b'\xff\xd9')`,
and a frame `bytes_data[jpeg_start:jpeg_end+2]` is sliced out when both are found
and `jpeg_end > jpeg_start` (the function then returns, dropping the buffer). -/
def scanBuffer (buf : List Nat) : Option (List Nat) :=
  match findSub SOI buf, findSub EOI buf with
  | some s, some e => if s < e then some ((buf.drop s).take (e + 2 - s)) else none
  | _, _ => none

/-- Scan step of the server-side script's `detect_faces_from_stream`:
`a = bytes_data.find(b'\xff\xd8')`, `b = bytes_data.find(b'\xff\xd9')`, and when
both are found (no `b > a` check) it slices `bytes_data[a:b+2]` and keeps
`bytes_data[b+2:]` for the next round. -/
def scanServer (buf : List Nat) : Option (List Nat × List Nat) :=
  match findSub SOI buf, findSub EOI buf with
  | some a, some b => some ((buf.drop a).take (b + 2 - a), buf.drop (b + 2))
  | _, _ => none

/-! ### The frame-acquisition read loop

`get_frame_from_stream` opens the stream (which may fail), then repeatedly
reads 1024-byte chunks: an empty chunk (connection closed) breaks the loop and
the function returns `None`; any exception during open or read is caught and
turned into `None`; otherwise the chunk is appended and the buffer scanned. -/

inductive ReadEvent where
  | chunk (data : List Nat)
  | ioError
  deriving DecidableEq, Repr

def readLoop : List Nat → List ReadEvent → Option (List Nat)
  | _, [] => none
  | _, ReadEvent.ioError :: _ => none
  | buf, ReadEvent.chunk c :: rest =>
    if c = [] then none
    else
      match scanBuffer (buf ++ c) with
      | some frame => some frame
      | none => readLoop (buf ++ c) rest

def get_frame_from_stream (openOk : Bool) (events : List ReadEvent) : Option (List Nat) :=
  if openOk then readLoop [] events else none

/-! ### Face detector (`FaceDetector.detect_faces`)

The Haar-cascade classifier is an external capability; a frame is modelled by
its dimensions together with the boxes the classifier returns on it.  Floats
are modelled as rationals. -/

def CONFIDENCE_THRESHOLD : ℚ := 7/10

/-- Area `w * h` of a classifier box `(x, y, w, h)`. -/
def boxArea (b : Nat × Nat × Nat × Nat) : ℚ :=
  (b.2.2.1 : ℚ) * (b.2.2.2 : ℚ)

/-- `detect_faces` returns `(face_count, confidence, faces)`:
`confidence = 0.0`, overwritten when `face_count > 0` by
`min(0.9, 0.5 + (avg_face_area / image_area) * 2)` with
`image_area = shape[0] * shape[1]` (height times width). -/
def detect_faces (height width : Nat) (boxes : List (Nat × Nat × Nat × Nat)) :
    Nat × ℚ × List (Nat × Nat × Nat × Nat) :=
  let face_count := boxes.length
  let confidence : ℚ :=
    if 0 < face_count then
      min (9/10) (1/2 + ((boxes.map boxArea).sum / face_count / ((height : ℚ) * width)) * 2)
    else 0
  (face_count, confidence, boxes)

/-! ### Reporter (`log_detection`)

The HTTP POST is external; `HttpOutcome` enumerates what it can come back
with.  For a response, `body` is `none` when `response.json()` raises
(non-JSON body) and `some id?` when it parses with an optional `id` field. -/

inductive HttpOutcome where
  | response (status : Nat) (body : Option (Option String))
  | timeout
  | connectionError
  | otherError
  deriving DecidableEq

inductive SendResult where
  | ack (id : Option String)
  | serverRejected (status : Nat)
  | timeoutFailure
  | unreachable
  | unknownFailure
  deriving DecidableEq

/-- Outcome classification of `FaceDetector.log_detection`: status 200 parses
the JSON body and returns success (a missing `id` only changes the log line);
any other status logs and returns failure; `requests.exceptions.Timeout`,
`requests.exceptions.ConnectionError` and any other exception are each caught
and returned as failure.  A 200 response whose body fails JSON parsing raises
inside the `try`, landing in the generic `except Exception` handler. -/
def log_detection : HttpOutcome → SendResult
  | HttpOutcome.response status body =>
    if status = 200 then
      match body with
      | some id => SendResult.ack id
      | none => SendResult.unknownFailure
    else SendResult.serverRejected status
  | HttpOutcome.timeout => SendResult.timeoutFailure
  | HttpOutcome.connectionError => SendResult.unreachable
  | HttpOutcome.otherError => SendResult.unknownFailure

/-- The boolean the Python function actually returns: `True` only on the
200-with-parsed-body path. -/
def isSuccess : SendResult → Bool
  | SendResult.ack _ => true
  | _ => false

/-! ### Motion detector (`MotionDetector.detect_motion`)

OpenCV's pixel-level operations are opaque external capabilities, bundled in
`MotionEnv`; the detector's arithmetic (area filter, level sum, significance
threshold, state update) is embedded exactly. -/

def MIN_CONTOUR_AREA : ℚ := 500

def MOTION_THRESHOLD : ℚ := 5000

def MOTION_COOLDOWN : ℚ := 5

def MAX_CONSECUTIVE_ERRORS : Nat := 10

structure MotionEnv (F G M C : Type) where
  cvtColor : F → G
  gaussianBlur : G → G
  absdiff : G → G → G
  threshold : G → M
  dilate : M → M
  findContours : M → List C
  contourArea : C → ℚ

/-- `detect_motion` on a frame, given the stored previous blurred-grayscale
frame; returns `((motion_detected, motion_level, significant_contours),
new_previous_frame)`. -/
def detect_motion {F G M C : Type} (env : MotionEnv F G M C)
    (prev : Option G) (frame : F) : (Bool × ℚ × List C) × Option G :=
  let gray := env.gaussianBlur (env.cvtColor frame)
  match prev with
  | none => ((false, 0, []), some gray)
  | some p =>
    let delta := env.absdiff p gray
    let thresh := env.dilate (env.threshold delta)
    let contours := env.findContours thresh
    let significant := contours.filter (fun c => MIN_CONTOUR_AREA < env.contourArea c)
    let level := (significant.map env.contourArea).sum
    ((decide (MOTION_THRESHOLD < level), level, significant), some gray)

/-! ### Detection loops

One loop iteration consumes a fetch result (`none` models a `None` frame,
i.e. `NotAvailable`) together with the wall-clock time `time.time()` observed
in that iteration.  A stopped state is terminal: the `while` loop has been
left by `break`, so further inputs change nothing.  `reports` counts calls to
`log_detection` (report attempts, whatever their network outcome). -/

/-- Python's `int()` on a float truncates toward zero. -/
def pyInt (q : ℚ) : ℤ :=
  if 0 ≤ q then ⌊q⌋ else ⌈q⌉

/-- A successfully acquired frame, as seen by the face script: its dimensions
plus what the external classifier returns on it. -/
structure FaceFrame where
  height : Nat
  width : Nat
  boxes : List (Nat × Nat × Nat × Nat)

structure FaceLoopState where
  errors : Nat
  stopped : Bool
  reports : Nat
  deriving DecidableEq, Repr

def faceInit : FaceLoopState := ⟨0, false, 0⟩

/-- One iteration of `FaceDetector.run_detection_loop`:
on a frame, reset `consecutive_errors`, run `detect_faces`, and call
`log_detection` iff `(face_count > 0 or int(current_time) % 30 == 0) and
confidence >= CONFIDENCE_THRESHOLD`; on `None`, increment the error counter
and `break` once it reaches `max_consecutive_errors = 10`. -/
def faceStep (st : FaceLoopState) (inp : Option FaceFrame × ℚ) : FaceLoopState :=
  if st.stopped then st
  else
    match inp with
    | (some f, t) =>
      let r := detect_faces f.height f.width f.boxes
      if (0 < r.1 ∨ pyInt t % 30 = 0) ∧ CONFIDENCE_THRESHOLD ≤ r.2.1 then
        ⟨0, false, st.reports + 1⟩
      else ⟨0, false, st.reports⟩
    | (none, _) =>
      ⟨st.errors + 1, decide (MAX_CONSECUTIVE_ERRORS ≤ st.errors + 1), st.reports⟩

def faceRun (st : FaceLoopState) (inps : List (Option FaceFrame × ℚ)) : FaceLoopState :=
  inps.foldl faceStep st

/-- Loop state of `MotionDetector.run_detection_loop`: error counter,
termination flag, the detector's `previous_frame` slot, `last_motion_log_time`
(initially 0) and the number of report attempts. -/
structure MotionLoopState (G : Type) where
  errors : Nat
  stopped : Bool
  prev : Option G
  lastLog : ℚ
  reports : Nat

def motionInit {G : Type} : MotionLoopState G := ⟨0, false, none, 0, 0⟩

/-- One iteration of `MotionDetector.run_detection_loop`: on a frame, reset
the error counter, run `detect_motion`; if motion is detected and
`current_time - last_motion_log_time >= motion_cooldown` then call
`log_detection` and advance `last_motion_log_time`; otherwise (cooldown
active, or no motion) only print.  On `None`, count the error and `break`
at `max_consecutive_errors = 10`. -/
def motionStep {F G M C : Type} (env : MotionEnv F G M C)
    (st : MotionLoopState G) (inp : Option F × ℚ) : MotionLoopState G :=
  if st.stopped then st
  else
    match inp with
    | (some frame, t) =>
      let out := detect_motion env st.prev frame
      if out.1.1 then
        if MOTION_COOLDOWN ≤ t - st.lastLog then
          ⟨0, false, out.2, t, st.reports + 1⟩
        else ⟨0, false, out.2, st.lastLog, st.reports⟩
      else ⟨0, false, out.2, st.lastLog, st.reports⟩
    | (none, _) =>
      ⟨st.errors + 1, decide (MAX_CONSECUTIVE_ERRORS ≤ st.errors + 1),
        st.prev, st.lastLog, st.reports⟩

def motionRun {F G M C : Type} (env : MotionEnv F G M C)
    (st : MotionLoopState G) (inps : List (Option F × ℚ)) : MotionLoopState G :=
  inps.foldl (motionStep env) st

/-- A degenerate pixel pipeline over rationals, used to exercise the motion
model on concrete inputs. -/
def toyEnv : MotionEnv ℚ ℚ ℚ ℚ where
  cvtColor := id
  gaussianBlur := id
  absdiff := fun a b => b - a
  threshold := id
  dilate := id
  findContours := fun m => [m]
  contourArea := id

/-! ## Claims -/

/-- Claim C1 (amended): the frame scan extracts exactly when the *first*
occurrence of `FF D8` in the buffer is at index `s`, the *first* occurrence of
`FF D9` is at index `e`, and `e > s`; the extracted frame is the inclusive
slice from `s` through `e+1`.  The example scripts then return, resetting the
buffer; the server variant retains the bytes after the end marker (and also
extracts whenever both markers are merely present, without the `e > s`
guard). -/
theorem c1_scan_extracts_at_first_markers (buf : List Nat) :
    (∀ s e, isFirstOccur SOI buf s → isFirstOccur EOI buf e → s < e →
      scanBuffer buf = some ((buf.drop s).take (e + 2 - s)) ∧
      scanServer buf = some ((buf.drop s).take (e + 2 - s), buf.drop (e + 2))) ∧
    (scanBuffer buf ≠ none →
      ∃ s e, isFirstOccur SOI buf s ∧ isFirstOccur EOI buf e ∧ s < e) := by
  constructor
  · intro s e hs he hlt
    have hs' : findSub SOI buf = some s := (findSub_some_iff SOI buf s).mpr hs
    have he' : findSub EOI buf = some e := (findSub_some_iff EOI buf e).mpr he
    constructor
    · simp [scanBuffer, hs', he', hlt]
    · simp [scanServer, hs', he']
  · intro hne
    unfold scanBuffer at hne
    cases hS : findSub SOI buf with
    | none => rw [hS] at hne; simp at hne
    | some s =>
      cases hE : findSub EOI buf with
      | none => rw [hS, hE] at hne; simp at hne
      | some e =>
        rw [hS, hE] at hne
        by_cases hlt : s < e
        · exact ⟨s, e, (findSub_some_iff SOI buf s).mp hS,
            (findSub_some_iff EOI buf e).mp hE, hlt⟩
        · simp [hlt] at hne

/-- Claim C1, counterexample to the original statement: the buffer
`FF D9 FF D8 FF D9` contains a start marker (index 2) with an end marker after
it (index 4), yet the scan extracts nothing, because the code compares the
first `FF D9` of the whole buffer (index 0) against the start index. -/
theorem c1_counterexample :
    (∃ s e, markerAt SOI [0xFF, 0xD9, 0xFF, 0xD8, 0xFF, 0xD9] s ∧
      markerAt EOI [0xFF, 0xD9, 0xFF, 0xD8, 0xFF, 0xD9] e ∧ s < e) ∧
    scanBuffer [0xFF, 0xD9, 0xFF, 0xD8, 0xFF, 0xD9] = none :=
  ⟨⟨2, 4, by decide, by decide, by decide⟩, by decide⟩

/-- Claim C1, witness: on `[1, FF, D8, 7, FF, D9, 9]` the scan extracts the
inclusive slice `FF D8 7 FF D9`, and the server variant retains `[9]`. -/
theorem c1_witness :
    scanBuffer [1, 0xFF, 0xD8, 7, 0xFF, 0xD9, 9] = some [0xFF, 0xD8, 7, 0xFF, 0xD9] ∧
    scanServer [1, 0xFF, 0xD8, 7, 0xFF, 0xD9, 9] =
      some ([0xFF, 0xD8, 7, 0xFF, 0xD9], [9]) := by
  have h := (c1_scan_extracts_at_first_markers [1, 0xFF, 0xD8, 7, 0xFF, 0xD9, 9]).1 1 4
    (by decide) (by decide) (by decide)
  exact ⟨h.1.trans (by decide), h.2.trans (by decide)⟩

/-- Claim C2: the face confidence is exactly 0 on zero boxes, exactly
`min(0.9, 0.5 + 2 * mean(box_area) / (height * width))` on one or more boxes,
and exactly 0.9 for a single box covering the whole frame. -/
theorem c2_face_confidence (H W : Nat) (boxes : List (Nat × Nat × Nat × Nat))
    (hH : 0 < H) (hW : 0 < W) :
    (boxes = [] → (detect_faces H W boxes).2.1 = 0) ∧
    (boxes ≠ [] → (detect_faces H W boxes).2.1 =
      min (9/10) (1/2 + 2 * ((boxes.map boxArea).sum / boxes.length) / ((H : ℚ) * W))) ∧
    (detect_faces H W [(0, 0, W, H)]).2.1 = 9/10 := by
  refine ⟨?_, ?_, ?_⟩
  · rintro rfl; rfl
  · intro hne
    have hlen : 0 < boxes.length := List.length_pos.mpr hne
    simp only [detect_faces, if_pos hlen]
    congr 1
    ring
  · have hA : ((H : ℚ) * W) ≠ 0 := by positivity
    have hone : (W : ℚ) * H / ((H : ℚ) * W) = 1 := by
      rw [mul_comm]
      exact div_self hA
    simp only [detect_faces, boxArea, List.map_cons, List.map_nil, List.sum_cons,
      List.sum_nil, List.length_cons, List.length_nil, Nat.cast_one, Nat.cast_ofNat,
      add_zero]
    rw [if_pos (by norm_num : 0 < 0 + 1)]
    norm_num
    rw [hone]
    norm_num

/-- Claim C2, witness: a 2×3 frame with no boxes has confidence 0; with one
box covering the whole frame, confidence 0.9. -/
theorem c2_witness :
    (detect_faces 2 3 ([] : List (Nat × Nat × Nat × Nat))).2.1 = 0 ∧
    (detect_faces 2 3 [(0, 0, 3, 2)]).2.1 = 9/10 :=
  ⟨(c2_face_confidence 2 3 [] (by norm_num) (by norm_num)).1 rfl,
   (c2_face_confidence 2 3 [(0, 0, 3, 2)] (by norm_num) (by norm_num)).2.2⟩

/-- Claim C4: on the very first observed frame the motion detector returns
`(False, 0, [])` — non-significant, motion level 0, no regions — and stores
the blurred grayscale of the current frame as the new previous frame. -/
theorem c4_motion_first_call {F G M C : Type} (env : MotionEnv F G M C) (frame : F) :
    detect_motion env none frame =
      ((false, 0, []), some (env.gaussianBlur (env.cvtColor frame))) := rfl

/-- Claim C5: with a previous frame stored, whatever the outcome, the stored
state after `detect_motion` is the blurred grayscale of the current frame
(frame-to-frame differencing). -/
theorem c5_motion_state_update {F G M C : Type} (env : MotionEnv F G M C)
    (p : G) (frame : F) :
    (detect_motion env (some p) frame).2 =
      some (env.gaussianBlur (env.cvtColor frame)) := rfl

/-- Claim C8, counterexample to the original statement: an HTTP 200 response
whose body fails JSON parsing does not yield success — `response.json()`
raises inside the `try`, lands in the generic handler, and the call returns
failure. -/
theorem c8_counterexample :
    log_detection (HttpOutcome.response 200 none) = SendResult.unknownFailure ∧
    isSuccess (log_detection (HttpOutcome.response 200 none)) = false :=
  ⟨rfl, rfl⟩

/-- Claim C8 (amended): `log_detection` never raises (it is a total
classification of outcomes): HTTP 200 with a JSON-parseable body yields
success, with a missing id not treated as an error; HTTP 200 with an
unparseable body falls into the generic handler as an Unknown failure; any
other status yields ServerRejected; timeout yields Timeout; connection
failure yields Unreachable; any other exception yields Unknown; failures are
swallowed and returned as a non-success value. -/
theorem c8_reporter_classification (status : Nat) (id : Option String)
    (body : Option (Option String)) (hs : status ≠ 200) :
    log_detection (HttpOutcome.response 200 (some id)) = SendResult.ack id ∧
    isSuccess (log_detection (HttpOutcome.response 200 (some id))) = true ∧
    log_detection (HttpOutcome.response status body) = SendResult.serverRejected status ∧
    log_detection HttpOutcome.timeout = SendResult.timeoutFailure ∧
    log_detection HttpOutcome.connectionError = SendResult.unreachable ∧
    log_detection HttpOutcome.otherError = SendResult.unknownFailure ∧
    (∀ o : HttpOutcome, isSuccess (log_detection o) = true ↔
      ∃ i, log_detection o = SendResult.ack i) := by
  refine ⟨rfl, rfl, by simp [log_detection, hs], rfl, rfl, rfl, ?_⟩
  intro o
  cases o with
  | response s b =>
    by_cases h2 : s = 200
    · subst h2
      cases b with
      | none => simp [log_detection, isSuccess]
      | some i => simp [log_detection, isSuccess]
    · simp [log_detection, h2, isSuccess]
  | timeout => simp [log_detection, isSuccess]
  | connectionError => simp [log_detection, isSuccess]
  | otherError => simp [log_detection, isSuccess]

/-- Claim C8, witness: a 500 response is classified as ServerRejected. -/
theorem c8_witness :
    log_detection (HttpOutcome.response 500 (some none)) = SendResult.serverRejected 500 :=
  (c8_reporter_classification 500 none (some none) (by norm_num)).2.2.1

/-- Claim C9: frame acquisition never propagates a fault — a failed stream
open, an I/O error mid-read, a closed connection (empty chunk) and an
exhausted stream all return `None`; and any returned frame really came from a
successful marker scan of some accumulated buffer. -/
theorem c9_frame_source_no_raise :
    (∀ events, get_frame_from_stream false events = none) ∧
    (∀ buf rest, readLoop buf (ReadEvent.ioError :: rest) = none) ∧
    (∀ buf rest, readLoop buf (ReadEvent.chunk [] :: rest) = none) ∧
    (∀ buf, readLoop buf [] = none) ∧
    (∀ buf events frame, readLoop buf events = some frame →
      ∃ b, scanBuffer b = some frame) := by
  refine ⟨fun events => rfl, fun buf rest => rfl,
    fun buf rest => by simp [readLoop], fun buf => rfl, ?_⟩
  intro buf events
  induction events generalizing buf with
  | nil => intro frame h; simp [readLoop] at h
  | cons ev rest ih =>
    intro frame h
    cases ev with
    | ioError => simp [readLoop] at h
    | chunk c =>
      by_cases hc : c = []
      · subst hc; simp [readLoop] at h
      · simp only [readLoop, if_neg hc] at h
        cases hscan : scanBuffer (buf ++ c) with
        | some fr =>
          rw [hscan] at h
          obtain rfl : fr = frame := by simpa using h
          exact ⟨buf ++ c, hscan⟩
        | none =>
          rw [hscan] at h
          exact ih (buf ++ c) frame h

/-- Claim C9, witness: opening failure yields `None`, and a concrete
successful read produced its frame from a marker scan. -/
theorem c9_witness :
    get_frame_from_stream false [] = none ∧
    ∃ b, scanBuffer b = some [0xFF, 0xD8, 0xFF, 0xD9] :=
  ⟨c9_frame_source_no_raise.1 [],
   c9_frame_source_no_raise.2.2.2.2 [] [ReadEvent.chunk [0xFF, 0xD8, 0xFF, 0xD9]]
     [0xFF, 0xD8, 0xFF, 0xD9] (by decide)⟩

/-! ### Loop helper lemmas -/

lemma faceStep_of_stopped (st : FaceLoopState) (inp : Option FaceFrame × ℚ)
    (h : st.stopped = true) : faceStep st inp = st := by
  simp [faceStep, h]

lemma faceRun_of_stopped (inps : List (Option FaceFrame × ℚ)) (st : FaceLoopState)
    (h : st.stopped = true) : faceRun st inps = st := by
  induction inps generalizing st with
  | nil => rfl
  | cons i rest ih =>
    show faceRun (faceStep st i) rest = st
    rw [faceStep_of_stopped st i h]
    exact ih st h

lemma faceRun_allNone (ts : List ℚ) : ∀ st : FaceLoopState, st.stopped = false →
    st.errors < MAX_CONSECUTIVE_ERRORS →
    MAX_CONSECUTIVE_ERRORS ≤ st.errors + ts.length →
    (faceRun st (ts.map fun t => ((none : Option FaceFrame), t))).stopped = true ∧
    (faceRun st (ts.map fun t => ((none : Option FaceFrame), t))).reports = st.reports := by
  induction ts with
  | nil =>
    intro st h hlt hlen
    simp only [List.length_nil, Nat.add_zero] at hlen
    omega
  | cons t rest ih =>
    intro st h hlt hlen
    show (faceRun (faceStep st (none, t)) _).stopped = true ∧
      (faceRun (faceStep st (none, t)) _).reports = st.reports
    simp only [faceStep, h, Bool.false_eq_true, if_false]
    by_cases hceil : MAX_CONSECUTIVE_ERRORS ≤ st.errors + 1
    · have hstop : (⟨st.errors + 1, decide (MAX_CONSECUTIVE_ERRORS ≤ st.errors + 1),
          st.reports⟩ : FaceLoopState).stopped = true := by
        simp [hceil]
      rw [faceRun_of_stopped _ _ hstop]
      simpa using hceil
    · have := ih ⟨st.errors + 1, decide (MAX_CONSECUTIVE_ERRORS ≤ st.errors + 1), st.reports⟩
        (by simp [hceil]) (by simpa using hceil) (by simp at hlen ⊢; omega)
      simpa using this

lemma motionStep_of_stopped {F G M C : Type} (env : MotionEnv F G M C)
    (st : MotionLoopState G) (inp : Option F × ℚ) (h : st.stopped = true) :
    motionStep env st inp = st := by
  simp [motionStep, h]

lemma motionRun_of_stopped {F G M C : Type} (env : MotionEnv F G M C)
    (inps : List (Option F × ℚ)) (st : MotionLoopState G) (h : st.stopped = true) :
    motionRun env st inps = st := by
  induction inps generalizing st with
  | nil => rfl
  | cons i rest ih =>
    show motionRun env (motionStep env st i) rest = st
    rw [motionStep_of_stopped env st i h]
    exact ih st h

lemma motionRun_allNone {F G M C : Type} (env : MotionEnv F G M C) (ts : List ℚ) :
    ∀ st : MotionLoopState G, st.stopped = false →
    st.errors < MAX_CONSECUTIVE_ERRORS →
    MAX_CONSECUTIVE_ERRORS ≤ st.errors + ts.length →
    (motionRun env st (ts.map fun t => ((none : Option F), t))).stopped = true ∧
    (motionRun env st (ts.map fun t => ((none : Option F), t))).reports = st.reports := by
  induction ts with
  | nil =>
    intro st h hlt hlen
    simp only [List.length_nil, Nat.add_zero] at hlen
    omega
  | cons t rest ih =>
    intro st h hlt hlen
    show (motionRun env (motionStep env st (none, t)) _).stopped = true ∧
      (motionRun env (motionStep env st (none, t)) _).reports = st.reports
    simp only [motionStep, h, Bool.false_eq_true, if_false]
    by_cases hceil : MAX_CONSECUTIVE_ERRORS ≤ st.errors + 1
    · have hstop : (⟨st.errors + 1, decide (MAX_CONSECUTIVE_ERRORS ≤ st.errors + 1),
          st.prev, st.lastLog, st.reports⟩ : MotionLoopState G).stopped = true := by
        simp [hceil]
      rw [motionRun_of_stopped env _ _ hstop]
      simpa using hceil
    · have := ih ⟨st.errors + 1, decide (MAX_CONSECUTIVE_ERRORS ≤ st.errors + 1),
        st.prev, st.lastLog, st.reports⟩
        (by simp [hceil]) (by simpa using hceil) (by simp at hlen ⊢; omega)
      simpa using this

/-- Claim C3: in both detection loops, a failed frame fetch increments the
consecutive-error counter (and terminates the loop exactly when the counter
reaches `MAX_CONSECUTIVE_ERRORS = 10`) without reporting, a successful fetch
resets the counter to zero, and a run of at least 10 `NotAvailable` fetches
from the start stops the loop having never called the Reporter. -/
theorem c3_error_ceiling :
    (∀ (st : FaceLoopState) (t : ℚ), st.stopped = false →
      (faceStep st ((none : Option FaceFrame), t)).errors = st.errors + 1 ∧
      (faceStep st ((none : Option FaceFrame), t)).stopped =
        decide (MAX_CONSECUTIVE_ERRORS ≤ st.errors + 1) ∧
      (faceStep st ((none : Option FaceFrame), t)).reports = st.reports) ∧
    (∀ (st : FaceLoopState) (f : FaceFrame) (t : ℚ), st.stopped = false →
      (faceStep st (some f, t)).errors = 0) ∧
    (∀ ts : List ℚ, MAX_CONSECUTIVE_ERRORS ≤ ts.length →
      (faceRun faceInit (ts.map fun t => ((none : Option FaceFrame), t))).stopped = true ∧
      (faceRun faceInit (ts.map fun t => ((none : Option FaceFrame), t))).reports = 0) ∧
    (∀ (F G M C : Type) (env : MotionEnv F G M C) (st : MotionLoopState G) (t : ℚ),
      st.stopped = false →
      (motionStep env st ((none : Option F), t)).errors = st.errors + 1 ∧
      (motionStep env st ((none : Option F), t)).stopped =
        decide (MAX_CONSECUTIVE_ERRORS ≤ st.errors + 1) ∧
      (motionStep env st ((none : Option F), t)).reports = st.reports) ∧
    (∀ (F G M C : Type) (env : MotionEnv F G M C) (st : MotionLoopState G) (f : F) (t : ℚ),
      st.stopped = false → (motionStep env st (some f, t)).errors = 0) ∧
    (∀ (F G M C : Type) (env : MotionEnv F G M C) (ts : List ℚ),
      MAX_CONSECUTIVE_ERRORS ≤ ts.length →
      (motionRun env (motionInit : MotionLoopState G)
        (ts.map fun t => ((none : Option F), t))).stopped = true ∧
      (motionRun env (motionInit : MotionLoopState G)
        (ts.map fun t => ((none : Option F), t))).reports = 0) := by
  refine ⟨?_, ?_, ?_, ?_, ?_, ?_⟩
  · intro st t h
    simp [faceStep, h]
  · intro st f t h
    simp only [faceStep, h, Bool.false_eq_true, if_false]
    split <;> rfl
  · intro ts hlen
    exact faceRun_allNone ts faceInit rfl (by simp [faceInit, MAX_CONSECUTIVE_ERRORS])
      (by simpa [faceInit] using hlen)
  · intro F G M C env st t h
    simp [motionStep, h]
  · intro F G M C env st f t h
    simp only [motionStep, h, Bool.false_eq_true, if_false]
    split
    · split <;> rfl
    · rfl
  · intro F G M C env ts hlen
    exact motionRun_allNone env ts motionInit rfl
      (by simp [motionInit, MAX_CONSECUTIVE_ERRORS])
      (by simpa [motionInit] using hlen)

/-- Claim C3, witness: a failed fetch at error count 3 moves it to 4; ten
`NotAvailable` fetches from the start stop the face loop with zero reports. -/
theorem c3_witness :
    (faceStep ⟨3, false, 0⟩ ((none : Option FaceFrame), (0 : ℚ))).errors = 3 + 1 ∧
    (faceRun faceInit ((List.replicate 10 (0 : ℚ)).map
      fun t => ((none : Option FaceFrame), t))).stopped = true ∧
    (faceRun faceInit ((List.replicate 10 (0 : ℚ)).map
      fun t => ((none : Option FaceFrame), t))).reports = 0 :=
  ⟨(c3_error_ceiling.1 ⟨3, false, 0⟩ 0 rfl).1,
   (c3_error_ceiling.2.2.1 (List.replicate 10 0)
     (by simp [MAX_CONSECUTIVE_ERRORS])).1,
   (c3_error_ceiling.2.2.1 (List.replicate 10 0)
     (by simp [MAX_CONSECUTIVE_ERRORS])).2⟩

/-- Claim C6: in the motion loop a report is attempted exactly when the
detection is significant and `now - last_motion_log_time >= 5`; otherwise the
report count is unchanged; and `last_motion_log_time` advances to `now`
exactly when a report is attempted. -/
theorem c6_motion_report_cooldown {F G M C : Type} (env : MotionEnv F G M C)
    (st : MotionLoopState G) (frame : F) (t : ℚ) (h : st.stopped = false) :
    ((motionStep env st (some frame, t)).reports = st.reports + 1 ↔
      ((detect_motion env st.prev frame).1.1 = true ∧
        MOTION_COOLDOWN ≤ t - st.lastLog)) ∧
    ((motionStep env st (some frame, t)).reports = st.reports + 1 ∨
      (motionStep env st (some frame, t)).reports = st.reports) ∧
    ((motionStep env st (some frame, t)).lastLog =
      if (detect_motion env st.prev frame).1.1 = true ∧
          MOTION_COOLDOWN ≤ t - st.lastLog
      then t else st.lastLog) := by
  simp only [motionStep, h, Bool.false_eq_true, if_false]
  by_cases hdet : (detect_motion env st.prev frame).1.1 = true
  · by_cases hcd : MOTION_COOLDOWN ≤ t - st.lastLog
    · simp [hdet, hcd]
    · simp [hdet, hcd]
  · simp [hdet]

/-- Claim C6, witness: with the toy pixel pipeline, a significant frame past
the cooldown triggers a report attempt. -/
theorem c6_witness :
    (motionStep toyEnv ⟨0, false, some 0, 0, 0⟩ (some (6000 : ℚ), (10 : ℚ))).reports
      = 0 + 1 :=
  ((c6_motion_report_cooldown toyEnv ⟨0, false, some 0, 0, 0⟩ 6000 10 rfl).1).mpr
    ⟨by norm_num [detect_motion, toyEnv, MIN_CONTOUR_AREA, MOTION_THRESHOLD,
      List.filter], by norm_num [MOTION_COOLDOWN]⟩

/-- Claim C7: in the face loop, a successfully acquired frame produces a
report exactly when the confidence clears `CONFIDENCE_THRESHOLD = 0.7` and
either faces were found or the 30-second heartbeat condition
`⌊now⌋ % 30 == 0` holds. -/
theorem c7_face_report_gate (st : FaceLoopState) (f : FaceFrame) (t : ℚ)
    (h : st.stopped = false) (ht : 0 ≤ t) :
    ((faceStep st (some f, t)).reports = st.reports + 1 ↔
      (CONFIDENCE_THRESHOLD ≤ (detect_faces f.height f.width f.boxes).2.1 ∧
        (0 < (detect_faces f.height f.width f.boxes).1 ∨ (⌊t⌋ : ℤ) % 30 = 0))) ∧
    ((faceStep st (some f, t)).reports = st.reports + 1 ∨
      (faceStep st (some f, t)).reports = st.reports) := by
  have hpy : pyInt t = ⌊t⌋ := if_pos ht
  have hstep : faceStep st (some f, t) =
      (if (0 < (detect_faces f.height f.width f.boxes).1 ∨ (⌊t⌋ : ℤ) % 30 = 0) ∧
          CONFIDENCE_THRESHOLD ≤ (detect_faces f.height f.width f.boxes).2.1
        then (⟨0, false, st.reports + 1⟩ : FaceLoopState)
        else ⟨0, false, st.reports⟩) := by
    simp only [faceStep, h, Bool.false_eq_true, if_false, hpy]
  rw [hstep]
  by_cases hcond : (0 < (detect_faces f.height f.width f.boxes).1 ∨
      (⌊t⌋ : ℤ) % 30 = 0) ∧
      CONFIDENCE_THRESHOLD ≤ (detect_faces f.height f.width f.boxes).2.1
  · rw [if_pos hcond]
    exact ⟨⟨fun _ => ⟨hcond.2, hcond.1⟩, fun _ => rfl⟩, Or.inl rfl⟩
  · rw [if_neg hcond]
    refine ⟨⟨fun heq => ?_, fun hc => absurd ⟨hc.2, hc.1⟩ hcond⟩, Or.inr rfl⟩
    simp at heq

/-- Claim C7, witness: one full-frame box on a 2×3 frame at time 0 clears the
threshold and triggers a report. -/
theorem c7_witness :
    (faceStep faceInit (some ⟨2, 3, [(0, 0, 3, 2)]⟩, (0 : ℚ))).reports =
      faceInit.reports + 1 :=
  ((c7_face_report_gate faceInit ⟨2, 3, [(0, 0, 3, 2)]⟩ 0 rfl le_rfl).1).mpr
    ⟨by norm_num [detect_faces, boxArea, CONFIDENCE_THRESHOLD],
     Or.inl (by norm_num [detect_faces])⟩

/-- Claim C10: a frame with no detected faces never produces a report — zero
boxes force confidence 0, below the 0.7 threshold, so the heartbeat alone
cannot trigger one. -/
theorem c10_no_faces_no_report (st : FaceLoopState) (t : ℚ) (f : FaceFrame)
    (h : f.boxes = []) :
    (faceStep st (some f, t)).reports = st.reports := by
  by_cases hs : st.stopped = true
  · rw [faceStep_of_stopped st _ hs]
  · have hconf : (detect_faces f.height f.width f.boxes).2.1 = 0 := by
      simp [detect_faces, h]
    have hno : ¬ ((0 < (detect_faces f.height f.width f.boxes).1 ∨
        pyInt t % 30 = 0) ∧
        CONFIDENCE_THRESHOLD ≤ (detect_faces f.height f.width f.boxes).2.1) := by
      rw [hconf]
      rintro ⟨-, hle⟩
      norm_num [CONFIDENCE_THRESHOLD] at hle
    have hs' : st.stopped = false := by
      cases hb : st.stopped
      · rfl
      · exact absurd hb hs
    simp only [faceStep, hs', Bool.false_eq_true, if_false, if_neg hno]

/-- Claim C10, witness: at a heartbeat instant (time 30) a frame with no
boxes still produces no report. -/
theorem c10_witness :
    (faceStep faceInit (some ⟨4, 4, []⟩, (30 : ℚ))).reports = faceInit.reports :=
  c10_no_faces_no_report faceInit 30 ⟨4, 4, []⟩ rfl
